import Mathlib

/-! Secure Document Delivery page controller (sdd.js).

A shallow embedding of the `SDD` controller of `sdd.js` and of the properties
its specification states about it.

JavaScript strings are modelled as lists of characters.  All tokens the
controller inspects (the double quote, the text filename=) are ASCII, so the
character view and the code-unit view of a string agree on them.
-/

namespace SDD

/-! ## JavaScript values and strings -/

/-- A JavaScript string. -/
abbrev JSString := List Char

/-- The JavaScript values that reach the controller; `errorObject` is an
`Error` object (a `TypeError`, a `DOMException`) with its `name` and
`message` properties. -/
inductive JSVal where
  | undefined
  | null
  | bool (b : Bool)
  | str (s : JSString)
  | errorObject (name : JSString) (message : JSString)
deriving DecidableEq, Repr

/-- Truthiness of a value, as tested by `if (x)`, `x ? a : b` and `x && y`;
an object is truthy. -/
def JSVal.truthy : JSVal → Bool
  | .undefined => false
  | .null => false
  | .bool b => b
  | .str s => !s.isEmpty
  | .errorObject _ _ => true

/-- String conversion of a value, as applied by `+` with a string operand and
by jQuery's `.html(value)` when it inserts a value that is not a string.  An
`Error` object converts by `Error.prototype.toString`: its name, a colon, a
space and its message, or the one of the two that is not empty. -/
def JSVal.toJSString : JSVal → JSString
  | .undefined => "undefined".toList
  | .null => "null".toList
  | .bool true => "true".toList
  | .bool false => "false".toList
  | .str s => s
  | .errorObject name message =>
    if name.isEmpty then message
    else if message.isEmpty then name
    else name ++ ": ".toList ++ message

/-- The message text of a thrown value in the sense of the specification: the
`message` property of an `Error` object, and the text itself of a thrown
string. -/
def JSVal.messageText : JSVal → JSString
  | .errorObject _ message => message
  | v => v.toJSString

/-- The double quote character. -/
def dquote : Char := Char.ofNat 34

/-! ## Error messages (sdd.js lines 240-258) -/

/-- Translation of `formatUnexpectedError(errorType)`:
`if (errorType) { errorType += " " }` followed by the concatenation
`"An unexpected " + errorType + "error occurred when requesting your document"`. -/
def formatUnexpectedError (errorType : JSVal) : JSString :=
  let errorType : JSVal :=
    if errorType.truthy then .str (errorType.toJSString ++ " ".toList) else errorType
  "An unexpected ".toList ++ errorType.toJSString
    ++ "error occurred when requesting your document".toList

/-- Translation of `formatUnexpectedHttpError(status)`. -/
def formatUnexpectedHttpError (status : Nat) : JSString :=
  let errorType : JSString :=
    if status = 504 then "server timeout".toList
    else if status ≥ 500 then "server".toList
    else if status ≥ 400 then "client".toList
    else "http".toList
  formatUnexpectedError (.str errorType)

/-! ## Filename extraction (sdd.js lines 304-312) -/

/-- Model of `String.prototype.includes`: does `pat` occur in `s`? -/
def includes (pat : JSString) : JSString → Bool
  | [] => pat.isEmpty
  | c :: cs => pat.isPrefixOf (c :: cs) || includes pat cs

/-- Worker of `split`: walks the string left to right.  `skip` counts the
characters of a separator occurrence still to be passed over, `acc` holds the
current piece in reverse. -/
def splitGo (sep : JSString) : JSString → Nat → JSString → List JSString
  | [], _, acc => [acc.reverse]
  | _ :: cs, skip + 1, acc => splitGo sep cs skip acc
  | c :: cs, 0, acc =>
    if sep.isPrefixOf (c :: cs) then
      acc.reverse :: splitGo sep cs (sep.length - 1) []
    else
      splitGo sep cs 0 (c :: acc)

/-- Model of `String.prototype.split` with a non-empty string separator: the
pieces between successive non-overlapping occurrences of `sep`, found left to
right. -/
def split (sep : JSString) (s : JSString) : List JSString :=
  splitGo sep s 0 []

/-- Model of `String.prototype.charAt`: the one-character string at `i`, or
the empty string when `i` is out of range. -/
def charAt (s : JSString) (i : Nat) : JSString :=
  match s.get? i with
  | some c => [c]
  | none => []

/-- Model of `String.prototype.substr(start, length)` for a non-negative
`start`; a negative `length` yields the empty string. -/
def substr (s : JSString) (start : Nat) (length : Int) : JSString :=
  (s.drop start).take length.toNat

/-- The text `filename=`. -/
def filenameToken : JSString := "filename=".toList

/-- Translation of `getContentDispositionFilename(req)`; `header` is the value
of `req.getResponseHeader('Content-Disposition')`, `none` standing for `null`.
Piece 1 of the split exists whenever the header includes the token (see
`split_length_of_includes`), so the default of `getD` is never used. -/
def getContentDispositionFilename (header : Option JSString) : JSString :=
  let filename : JSString :=
    match header with
    | none => "attachment".toList
    | some h =>
      if !h.isEmpty && includes filenameToken h then
        (split filenameToken h).getD 1 []
      else "attachment".toList
  if charAt filename 0 = [dquote]
      ∧ charAt filename (filename.length - 1) = [dquote] then
    substr filename 1 ((filename.length : Int) - 2)
  else filename

/-! ## The page: containers, message elements and the password field -/

/-- The eight containers the controller shows and hides (sdd.js lines 39-46). -/
inductive Container where
  | downloadInprogress
  | downloadSuccess
  | downloadFailure
  | downloadDirectLink
  | secureHeading
  | secureForm
  | downloadErrorMsg
  | secureErrorMsg
deriving DecidableEq, Repr

/-- The part of the document the controller reads and writes: the `hidden`
class of every container, the content of the three message elements and the
value of the password field. -/
structure Page where
  hidden : Container → Bool
  downloadErrorMsg : JSString
  secureErrorMsg : JSString
  downloadStatusMessage : JSString
  password : JSString

/-- A container is visible when it does not carry the `hidden` class. -/
def Page.visible (pg : Page) (c : Container) : Bool := !pg.hidden c

/-- Translation of `toggleShowContainer(container, show)`, that is
`container.toggleClass('hidden', !show)`; the parameter `show` is named
`doShow` here. -/
def toggleShowContainer (pg : Page) (container : Container) (doShow : Bool) : Page :=
  { pg with hidden := fun c => if c = container then !doShow else pg.hidden c }

/-- The array `allContainers` of `showContainers`, in source order. -/
def allContainers : List Container :=
  [.downloadInprogress, .downloadSuccess, .downloadFailure, .downloadDirectLink,
   .secureHeading, .secureForm, .downloadErrorMsg, .secureErrorMsg]

/-- Translation of `showContainers(showContainers)`: the loop over
`allContainers`, each container toggled by
`showContainers.some(s => s === container)`.  The test `if (container)` of the
loop body holds for every container, a jQuery object being truthy. -/
def showContainers (pg : Page) (shown : List Container) : Page :=
  allContainers.foldl
    (fun pg container => toggleShowContainer pg container (shown.any (fun s => s == container)))
    pg

/-- The status text `PREPARING`. -/
def PREPARING : JSString := "Preparing document".toList

/-- The status text `TRANSFERRING`. -/
def TRANSFERRING : JSString := "Downloading document".toList

/-- The fixed text used when no message is available. -/
def fallbackMessage : JSString :=
  "An error occurred while trying to retrieve your document. Please try again.".toList

/-- Translation of `showDownloadingStatus(status)`. -/
def showDownloadingStatus (pg : Page) (status : JSString) : Page :=
  showContainers { pg with downloadStatusMessage := status } [.downloadInprogress]

/-- Translation of `showDownloadSuccess()`. -/
def showDownloadSuccess (pg : Page) : Page :=
  showContainers pg [.downloadSuccess, .downloadDirectLink]

/-- Translation of `showDownloadFailure(message)`. -/
def showDownloadFailure (pg : Page) (message : JSVal) : Page :=
  let pg : Page :=
    if message.truthy then { pg with downloadErrorMsg := message.toJSString }
    else { pg with downloadErrorMsg := fallbackMessage }
  showContainers pg [.downloadFailure, .downloadDirectLink, .downloadErrorMsg]

/-- Translation of `promptPassword()`. -/
def promptPassword (pg : Page) : Page :=
  showContainers { pg with password := [] } [.secureHeading, .secureForm]

/-! ## Request parameters and `requestDocument` (sdd.js lines 85-118) -/

/-- A parameter object: its own keys in insertion order with their values. -/
abbrev Params := List (JSString × JSVal)

/-- Property read `params[key]`; an absent key reads as `undefined`. -/
def Params.get (params : Params) (key : JSString) : JSVal :=
  match params.lookup key with
  | some v => v
  | none => .undefined

/-- Test `params.hasOwnProperty(key)`. -/
def Params.hasKey (params : Params) (key : JSString) : Bool :=
  params.any (fun kv => kv.1 == key)

/-- Assignment `params[key] = value`: an existing key keeps its place. -/
def Params.set (params : Params) (key : JSString) (value : JSVal) : Params :=
  if Params.hasKey params key then
    params.map (fun kv => if kv.1 = key then (key, value) else kv)
  else params ++ [(key, value)]

/-- Statement `delete params[key]`. -/
def Params.delete (params : Params) (key : JSString) : Params :=
  params.filter (fun kv => kv.1 != key)

/-- The field `requestDocumentUrl`. -/
def requestDocumentUrl : JSString := "requestdocument.php".toList

/-- The field `getDocumentUrl`. -/
def getDocumentUrl : JSString := "getdocument.php".toList

/-- The two identifiers read from the page when the controller is built. -/
structure Reference where
  messageLinkCode : JSVal
  attachmentLinkCode : JSVal

/-- What a controller function hands onwards. -/
inductive Call where
  /-- The call `$this.download(params)`. -/
  | download (params : Params)
  /-- The call `$.ajax` with `url`, `type` and `data`. -/
  | ajax (url : JSString) (type : JSString) (data : Params)
deriving DecidableEq

/-- The object literal `requestParams` at the start of `requestDocument`. -/
def initialRequestParams (ref : Reference) (password : JSVal) : Params :=
  [("s".toList, ref.messageLinkCode),
   ("mal".toList, ref.attachmentLinkCode),
   ("p".toList, if password.truthy then password else .null)]

/-- Translation of `requestDocument(password)`: the call it issues. -/
def requestDocument (ref : Reference) (password : JSVal) : Call :=
  let requestParams := initialRequestParams ref password
  if password.truthy then
    let requestParams := Params.set requestParams "v".toList (.bool true)
    .ajax requestDocumentUrl "POST".toList requestParams
  else
    .download requestParams

/-- The `success` callback of the verification call; `requestParams` is the
object captured by the closure.  Returns the page and the calls issued. -/
def requestDocumentSuccess (pg : Page) (requestParams : Params) : Page × List Call :=
  let requestParams := Params.delete requestParams "v".toList
  (pg, [.download requestParams])

/-- The `responseJSON` object of a failed response; an absent `errorMessage`
field reads as `undefined`. -/
structure ResponseJSON where
  errorMessage : JSVal

/-- The argument `res` of the `error` callback. -/
structure ErrorResponse where
  responseJSON : Option ResponseJSON

/-- The `error` callback of the verification call.  Returns the page and the
calls issued. -/
def requestDocumentError (pg : Page) (res : Option ErrorResponse) : Page × List Call :=
  let errorMessage : Option JSVal :=
    match res with
    | some r =>
      match r.responseJSON with
      | some j => if j.errorMessage.truthy then some j.errorMessage else none
      | none => none
    | none => none
  let pg : Page :=
    match errorMessage with
    | some m => { pg with secureErrorMsg := m.toJSString }
    | none => { pg with secureErrorMsg := fallbackMessage }
  (toggleShowContainer pg .secureErrorMsg true, [])

/-! ## The download step (sdd.js lines 158-238 and 345-373) -/

/-- The form built by `getDocumentForm`: its `method` and `action` attributes
and its hidden fields, one per own key of the parameter object. -/
structure Form where
  method : JSString
  action : JSString
  fields : List (JSString × JSVal)

/-- Translation of `getDocumentForm(params)`. -/
def getDocumentForm (params : Params) : Form :=
  let am : JSString × JSString :=
    if (Params.get params "p".toList).truthy then (requestDocumentUrl, "post".toList)
    else (getDocumentUrl, "get".toList)
  { method := am.2, action := am.1, fields := params }

/-- Model of `String.prototype.toUpperCase` on ASCII text. -/
def toUpperCase (s : JSString) : JSString := s.map Char.toUpper

/-- The request `downloadAndSave` opens and later sends: the arguments of
`req.open`, the `Content-Type` header it sets and the body passed to
`req.send`. -/
structure Request where
  method : JSString
  url : JSString
  contentType : Option JSString
  body : Option JSString
deriving DecidableEq

/-- The request part of `downloadAndSave(params)`.  The library function
`form.serialize()` is the parameter `serialize`. -/
def downloadRequest (serialize : Form → JSString) (params : Params) : Request :=
  let form := getDocumentForm params
  let page_url := form.action
  let method := toUpperCase form.method
  let params := serialize form
  let page_url := if method = "GET".toList then page_url ++ "?".toList ++ params else page_url
  { method := method
    url := page_url
    contentType :=
      if method = "POST".toList then
        some "application/x-www-form-urlencoded; charset=UTF-8".toList
      else none
    body := if method = "POST".toList then some params else none }

/-- A serializer for examples: `name=value` pairs joined by `&`, without
percent-encoding; a `null` or `undefined` value gives an empty value. -/
def sampleSerialize (form : Form) : JSString :=
  "&".toList.intercalate
    (form.fields.map fun kv =>
      kv.1 ++ "=".toList ++
        (match kv.2 with
         | .null => []
         | .undefined => []
         | v => v.toJSString))

/-- The browser as `saveBlob` meets it: whether
`window.navigator.msSaveBlob` is defined, whether an anchor element has a
`download` property, and for every browser call of the function the value
that call throws, `none` when it returns normally. -/
structure Browser where
  newBlob : Option JSVal
  msSaveBlob : Bool
  createObjectURL : Option JSVal
  createElement : Option JSVal
  anchorDownload : Bool
  setLocation : Option JSVal
  appendChild : Option JSVal
  click : Option JSVal

/-- How `saveBlob` hands the file to the user when it does not throw. -/
inductive SaveAction where
  | navigate
  | clickAnchor (filename : JSString)
deriving DecidableEq

/-- A browser call that throws the given value, or returns when there is
none. -/
def browserCall (throws : Option JSVal) : Except JSVal Unit :=
  match throws with
  | some error => .error error
  | none => .ok ()

/-- The text `saveBlob` throws itself. -/
def unsupportedBrowserMessage : JSString :=
  "This browser version is not supported.  Please try again with a different browser.".toList

/-- Translation of `saveBlob(response, filename)`, statement by statement:
`new Blob`, the test of `msSaveBlob` with the function's own `throw`,
`URL.createObjectURL`, `document.createElement`, then either the assignment
to `window.location` or `appendChild` and `click`.  Every browser call may
throw. -/
def saveBlob (br : Browser) (filename : JSString) : Except JSVal SaveAction := do
  browserCall br.newBlob
  if br.msSaveBlob then
    throw (.str unsupportedBrowserMessage)
  else
    browserCall br.createObjectURL
    browserCall br.createElement
    if !br.anchorDownload then
      browserCall br.setLocation
      pure .navigate
    else
      browserCall br.appendChild
      browserCall br.click
      pure (.clickAnchor filename)

/-- A browser in which every call returns normally and the anchor element
supports `download`. -/
def modernBrowser : Browser :=
  { newBlob := none, msSaveBlob := false, createObjectURL := none, createElement := none,
    anchorDownload := true, setLocation := none, appendChild := none, click := none }

/-- A browser that defines `msSaveBlob`. -/
def msBrowser : Browser := { modernBrowser with msSaveBlob := true }

/-- A browser without `URL.createObjectURL`: the call throws a `TypeError`. -/
def noObjectUrlBrowser : Browser :=
  { modernBrowser with
    createObjectURL :=
      some (.errorObject "TypeError".toList "URL.createObjectURL is not a function".toList) }

/-- The events of one transfer that run a handler of `downloadAndSave`. -/
inductive TransferEvent where
  /-- The pre-dispatch timer fires and runs `req.send`, which may throw. -/
  | dispatchTimer (sendThrows : Bool)
  /-- A `progress` event of the request. -/
  | progress
  /-- A `readystatechange` event with the request in `readyState` and `status`. -/
  | readyStateChange (readyState : Nat) (status : Nat)
  /-- The `error` event of the request (network error). -/
  | networkError
  /-- The `timeout` event of the request. -/
  | clientTimeout
  /-- The pre-save timer fires; `result` is what `saveBlob` did. -/
  | saveTimer (result : Except JSVal SaveAction)

/-- The constant `FINISHED`. -/
def FINISHED : Nat := 4

/-- The handler each event runs, as a change of the page. -/
def transferStep (pg : Page) : TransferEvent → Page
  | .dispatchTimer sendThrows =>
    if sendThrows then
      showDownloadFailure pg (.str (formatUnexpectedError (.str "communication".toList)))
    else pg
  | .progress => showDownloadingStatus pg TRANSFERRING
  | .readyStateChange readyState status =>
    if readyState = FINISHED ∧ status ≥ 200 ∧ status < 300 then pg
    else if readyState = FINISHED then
      showDownloadFailure pg (.str (formatUnexpectedHttpError status))
    else pg
  | .networkError =>
    showDownloadFailure pg (.str (formatUnexpectedError (.str "network".toList)))
  | .clientTimeout =>
    showDownloadFailure pg (.str (formatUnexpectedError (.str "client timeout".toList)))
  | .saveTimer (.ok _) => showDownloadSuccess pg
  | .saveTimer (.error error) => showDownloadFailure pg error

/-- The page after a sequence of transfer events. -/
def runTransfer (pg : Page) (events : List TransferEvent) : Page :=
  events.foldl transferStep pg

/-- The page when `downloadAndSave` returns: the preparing status is shown and
the pre-dispatch timer is pending. -/
def startDownload (pg : Page) : Page := showDownloadingStatus pg PREPARING

/-! ## The view states -/

/-- The five view states of the specification. -/
inductive UIState where
  | PasswordPrompt
  | Preparing
  | Transferring
  | Success
  | Failure
deriving DecidableEq, Repr

/-- The containers of `allContainers` that are visible, in source order. -/
def visibleContainers (pg : Page) : List Container :=
  allContainers.filter (fun c => pg.visible c)

/-- The view state a page shows, read off the visible containers and the
status text; `none` when the page shows none of the five views.  The password
prompt is recognised with or without its error banner. -/
def uiState (pg : Page) : Option UIState :=
  let vis := visibleContainers pg
  if vis = [.secureHeading, .secureForm] ∨ vis = [.secureHeading, .secureForm, .secureErrorMsg]
  then some .PasswordPrompt
  else if vis = [.downloadInprogress] then
    if pg.downloadStatusMessage = PREPARING then some .Preparing
    else if pg.downloadStatusMessage = TRANSFERRING then some .Transferring
    else none
  else if vis = [.downloadSuccess, .downloadDirectLink] then some .Success
  else if vis = [.downloadFailure, .downloadDirectLink, .downloadErrorMsg] then some .Failure
  else none

/-- A page with every container hidden and every text empty. -/
def blankPage : Page :=
  { hidden := fun _ => true
    downloadErrorMsg := []
    secureErrorMsg := []
    downloadStatusMessage := []
    password := [] }

/-! ## Theorems: error messages -/

/-- For a non-empty kind the message carries the kind followed by one space. -/
theorem formatUnexpectedError_str (kind : JSString) (h : kind ≠ []) :
    formatUnexpectedError (.str kind) =
      "An unexpected ".toList ++ kind ++ " ".toList
        ++ "error occurred when requesting your document".toList := by
  cases kind with
  | nil => exact absurd rfl h
  | cons c cs => simp [formatUnexpectedError, JSVal.truthy, JSVal.toJSString]

/-- C1: for every status, `formatUnexpectedHttpError` returns
"An unexpected <kind> error occurred when requesting your document" with kind
"server timeout" for 504, else "server" from 500 up, else "client" from 400
up, else "http"; so the messages for 504, 500 and 404 contain
"server timeout", "server" and "client". -/
theorem formatUnexpectedHttpError_message (status : Nat) :
    formatUnexpectedHttpError status =
        "An unexpected ".toList
          ++ (if status = 504 then "server timeout".toList
              else if status ≥ 500 then "server".toList
              else if status ≥ 400 then "client".toList
              else "http".toList)
          ++ " error occurred when requesting your document".toList
      ∧ "server timeout".toList <:+: formatUnexpectedHttpError 504
      ∧ "server".toList <:+: formatUnexpectedHttpError 500
      ∧ "client".toList <:+: formatUnexpectedHttpError 404 := by
  refine ⟨?_, ?_, ?_, ?_⟩
  · unfold formatUnexpectedHttpError
    split_ifs <;> rfl
  · exact ⟨"An unexpected ".toList,
      " error occurred when requesting your document".toList, by decide⟩
  · exact ⟨"An unexpected ".toList,
      " error occurred when requesting your document".toList, by decide⟩
  · exact ⟨"An unexpected ".toList,
      " error occurred when requesting your document".toList, by decide⟩

/-- C4: called with no argument, `formatUnexpectedError` returns
"An unexpected undefinederror occurred when requesting your document", which
is not the text "An unexpected error occurred when requesting your document";
for every non-empty kind it returns "An unexpected ", the kind, one space and
"error occurred when requesting your document". -/
theorem formatUnexpectedError_omitted :
    formatUnexpectedError .undefined =
        "An unexpected undefinederror occurred when requesting your document".toList
      ∧ formatUnexpectedError .undefined ≠
        "An unexpected error occurred when requesting your document".toList
      ∧ ∀ kind : JSString, kind ≠ [] →
          formatUnexpectedError (.str kind) =
            "An unexpected ".toList ++ kind ++ " ".toList
              ++ "error occurred when requesting your document".toList :=
  ⟨by decide, by decide, formatUnexpectedError_str⟩

/-! ## Theorems: container visibility -/

/-- The `hidden` class of every container after `showContainers`. -/
theorem showContainers_hidden (pg : Page) (shown : List Container) (c : Container) :
    (showContainers pg shown).hidden c = !(shown.any (fun s => s == c)) := by
  cases c <;> simp [showContainers, allContainers, toggleShowContainer]

/-- The function `showContainers` only changes the `hidden` classes. -/
theorem showContainers_texts (pg : Page) (shown : List Container) :
    (showContainers pg shown).downloadErrorMsg = pg.downloadErrorMsg
      ∧ (showContainers pg shown).secureErrorMsg = pg.secureErrorMsg
      ∧ (showContainers pg shown).downloadStatusMessage = pg.downloadStatusMessage
      ∧ (showContainers pg shown).password = pg.password := by
  simp [showContainers, allContainers, toggleShowContainer]

/-- Two pages with the same fields are equal. -/
theorem Page.ext_fields (a b : Page) (h1 : ∀ c, a.hidden c = b.hidden c)
    (h2 : a.downloadErrorMsg = b.downloadErrorMsg) (h3 : a.secureErrorMsg = b.secureErrorMsg)
    (h4 : a.downloadStatusMessage = b.downloadStatusMessage) (h5 : a.password = b.password) :
    a = b := by
  cases a; cases b
  simp only [Page.mk.injEq]
  exact ⟨funext h1, h2, h3, h4, h5⟩

/-- C5: after `showContainers(visibleSet)` a container is visible exactly
when it is in `visibleSet`, whatever the page was before, and a second call
with the same set leaves the page unchanged. -/
theorem showContainers_visible_iff (pg : Page) (visibleSet : List Container) :
    (∀ c : Container, (showContainers pg visibleSet).visible c = true ↔ c ∈ visibleSet)
      ∧ (∀ (pg2 : Page) (c : Container),
          (showContainers pg2 visibleSet).visible c = (showContainers pg visibleSet).visible c)
      ∧ showContainers (showContainers pg visibleSet) visibleSet
          = showContainers pg visibleSet := by
  refine ⟨?_, ?_, ?_⟩
  · intro c
    simp [Page.visible, showContainers_hidden]
  · intro pg2 c
    simp [Page.visible, showContainers_hidden]
  · obtain ⟨h2, h3, h4, h5⟩ := showContainers_texts (showContainers pg visibleSet) visibleSet
    exact Page.ext_fields _ _ (fun c => by simp [showContainers_hidden]) h2 h3 h4 h5

/-! ## Theorems: method selection and the verify flag -/

/-- C6: when the parameter `p` is non-empty the download request is a POST to
`requestdocument.php` whose URL is exactly that name, without a question
mark, and whose body is the serialized form of the parameters; when `p` is
absent or empty it is a GET to `getdocument.php` with the serialized form
appended after a question mark and no body.  In both cases the fields of the
serialized form are the parameters. -/
theorem downloadRequest_method (serialize : Form → JSString) (params : Params) :
    ((Params.get params "p".toList).truthy = true →
        (downloadRequest serialize params).method = "POST".toList
          ∧ (downloadRequest serialize params).url = "requestdocument.php".toList
          ∧ (Char.ofNat 63) ∉ (downloadRequest serialize params).url
          ∧ (downloadRequest serialize params).body
              = some (serialize (getDocumentForm params)))
      ∧ ((Params.get params "p".toList).truthy = false →
        (downloadRequest serialize params).method = "GET".toList
          ∧ (downloadRequest serialize params).url
              = "getdocument.php".toList ++ [Char.ofNat 63]
                  ++ serialize (getDocumentForm params)
          ∧ (downloadRequest serialize params).body = none)
      ∧ (getDocumentForm params).fields = params := by
  refine ⟨?_, ?_, rfl⟩
  · intro h
    have hm : toUpperCase (getDocumentForm params).method = "POST".toList := by
      simp only [getDocumentForm, h, if_true]; decide
    have ha : (getDocumentForm params).action = requestDocumentUrl := by
      simp only [getDocumentForm, h, if_true]
    have hne : ("POST".toList = "GET".toList) = False := by simp
    refine ⟨?_, ?_, ?_, ?_⟩
    · simp only [downloadRequest, hm]
    · simp only [downloadRequest, hm, ha, hne, if_false]; rfl
    · simp only [downloadRequest, hm, ha, hne, if_false]; decide
    · simp only [downloadRequest, hm, if_true]
  · intro h
    have hm : toUpperCase (getDocumentForm params).method = "GET".toList := by
      simp only [getDocumentForm, h]; decide
    have ha : (getDocumentForm params).action = getDocumentUrl := by
      simp only [getDocumentForm, h]; rfl
    have hne : ("GET".toList = "POST".toList) = False := by simp
    refine ⟨?_, ?_, ?_⟩
    · simp only [downloadRequest, hm]
    · simp only [downloadRequest, hm, ha, if_true]; rfl
    · simp only [downloadRequest, hm, hne, if_false]

/-- C7: for a non-empty password `requestDocument` issues one POST to
`requestdocument.php` carrying `s`, `mal`, `p` = password and `v` = true, and
the success callback of that call hands `download` the parameters `s`, `mal`,
`p` = password without a `v` key; for an absent or empty password it issues
no such call and hands `download` the parameters `s`, `mal`, `p` = null
without a `v` key. -/
theorem requestDocument_verify_flag (ref : Reference) (password : JSVal) (pg : Page) :
    (password.truthy = true →
        requestDocument ref password
            = .ajax "requestdocument.php".toList "POST".toList
                [("s".toList, ref.messageLinkCode), ("mal".toList, ref.attachmentLinkCode),
                 ("p".toList, password), ("v".toList, .bool true)]
          ∧ requestDocumentSuccess pg
                [("s".toList, ref.messageLinkCode), ("mal".toList, ref.attachmentLinkCode),
                 ("p".toList, password), ("v".toList, .bool true)]
            = (pg, [.download
                [("s".toList, ref.messageLinkCode), ("mal".toList, ref.attachmentLinkCode),
                 ("p".toList, password)]])
          ∧ Params.hasKey
                [("s".toList, ref.messageLinkCode), ("mal".toList, ref.attachmentLinkCode),
                 ("p".toList, password)] "v".toList = false)
      ∧ (password.truthy = false →
        requestDocument ref password
            = .download
                [("s".toList, ref.messageLinkCode), ("mal".toList, ref.attachmentLinkCode),
                 ("p".toList, .null)]
          ∧ Params.hasKey
                [("s".toList, ref.messageLinkCode), ("mal".toList, ref.attachmentLinkCode),
                 ("p".toList, .null)] "v".toList = false) := by
  have hs : ("s".toList == "v".toList) = false := by decide
  have hm : ("mal".toList == "v".toList) = false := by decide
  have hp : ("p".toList == "v".toList) = false := by decide
  have hv : ("v".toList == "v".toList) = true := by decide
  refine ⟨?_, ?_⟩
  · intro h
    refine ⟨?_, ?_, ?_⟩
    · simp only [requestDocument, initialRequestParams, h, if_true, Params.set, Params.hasKey,
        List.any_cons, List.any_nil, hs, hm, hp, Bool.or_false, Bool.false_eq_true, if_false]
      rfl
    · simp only [requestDocumentSuccess, Params.delete, List.filter, bne, hs, hm, hp, hv,
        Bool.not_false, Bool.not_true]
    · simp only [Params.hasKey, List.any_cons, List.any_nil, hs, hm, hp, Bool.or_false]
  · intro h
    refine ⟨?_, ?_⟩
    · simp only [requestDocument, initialRequestParams, h, Bool.false_eq_true, if_false]
    · simp only [Params.hasKey, List.any_cons, List.any_nil, hs, hm, hp, Bool.or_false]

/-! ## Theorems: the error callback of the verification call -/

/-- C8, as stated, fails: a failed response whose `errorMessage` field is
present and holds the empty string makes the handler display the fixed text,
not the field. -/
theorem requestDocumentError_empty_errorMessage :
    (requestDocumentError blankPage (some ⟨some ⟨.str []⟩⟩)).1.secureErrorMsg
        = "An error occurred while trying to retrieve your document. Please try again.".toList
      ∧ (requestDocumentError blankPage (some ⟨some ⟨.str []⟩⟩)).1.secureErrorMsg
        ≠ (JSVal.str []).toJSString := by
  constructor <;> decide

/-- C8, amended: the error handler displays the response's `errorMessage`
when that field is present and non-empty, and the fixed text when the
response, its JSON body or the field is absent or the field is empty; in
every case the error banner becomes visible, the password value and every
other container keep their state, and no call is issued. -/
theorem requestDocumentError_spec (pg : Page) (res : Option ErrorResponse) :
    (∀ message : JSString, message ≠ [] → res = some ⟨some ⟨.str message⟩⟩ →
        (requestDocumentError pg res).1.secureErrorMsg = message)
      ∧ ((res = none ∨ res = some ⟨none⟩ ∨ res = some ⟨some ⟨.undefined⟩⟩
            ∨ res = some ⟨some ⟨.null⟩⟩ ∨ res = some ⟨some ⟨.str []⟩⟩) →
        (requestDocumentError pg res).1.secureErrorMsg
          = "An error occurred while trying to retrieve your document. Please try again.".toList)
      ∧ (requestDocumentError pg res).1.visible .secureErrorMsg = true
      ∧ (requestDocumentError pg res).1.password = pg.password
      ∧ (∀ c : Container, c ≠ .secureErrorMsg →
          (requestDocumentError pg res).1.visible c = pg.visible c)
      ∧ (requestDocumentError pg res).2 = [] := by
  refine ⟨?_, ?_, ?_, ?_, ?_, rfl⟩
  · intro message hne hres
    subst hres
    cases message with
    | nil => exact absurd rfl hne
    | cons c cs => simp [requestDocumentError, toggleShowContainer, JSVal.truthy, JSVal.toJSString]
  · intro h
    rcases h with h | h | h | h | h <;> subst h <;> rfl
  · simp [requestDocumentError, toggleShowContainer, Page.visible]
  · simp only [requestDocumentError, toggleShowContainer]
    split <;> rfl
  · intro c hc
    simp [requestDocumentError, toggleShowContainer, Page.visible, hc]
    split <;> rfl

/-- The amended C8 at a concrete response: the message "Wrong password" is
displayed, the banner is visible and the prompt containers stay visible. -/
theorem requestDocumentError_spec_witness :
    (requestDocumentError (promptPassword blankPage)
        (some ⟨some ⟨.str "Wrong password".toList⟩⟩)).1.secureErrorMsg
          = "Wrong password".toList
      ∧ (requestDocumentError (promptPassword blankPage)
        (some ⟨some ⟨.str "Wrong password".toList⟩⟩)).1.visible .secureForm = true :=
  ⟨(requestDocumentError_spec (promptPassword blankPage)
      (some ⟨some ⟨.str "Wrong password".toList⟩⟩)).1 "Wrong password".toList (by decide) rfl,
   by
    rw [(requestDocumentError_spec (promptPassword blankPage)
      (some ⟨some ⟨.str "Wrong password".toList⟩⟩)).2.2.2.2.1 .secureForm (by decide)]
    decide⟩

/-! ## Theorems: the failure and success views -/

/-- Every message of `formatUnexpectedError` starts with the letter A. -/
theorem formatUnexpectedError_head (kind : JSVal) :
    (formatUnexpectedError kind).head? = some 'A' := rfl

/-- A message of `formatUnexpectedError` is a non-empty string. -/
theorem formatUnexpectedError_truthy (kind : JSVal) :
    (JSVal.str (formatUnexpectedError kind)).truthy = true := rfl

/-- The error text after `showDownloadFailure` with a truthy message. -/
theorem showDownloadFailure_message (pg : Page) (message : JSVal)
    (h : message.truthy = true) :
    (showDownloadFailure pg message).downloadErrorMsg = message.toJSString := by
  simp [showDownloadFailure, h, (showContainers_texts _ _).1]

/-- The visible containers after `showContainers`. -/
theorem visibleContainers_showContainers (pg : Page) (shown : List Container) :
    visibleContainers (showContainers pg shown)
      = allContainers.filter (fun c => shown.any (fun s => s == c)) := by
  simp [visibleContainers, Page.visible, showContainers_hidden]

/-- The failure view is shown after `showDownloadFailure`. -/
theorem uiState_showDownloadFailure (pg : Page) (message : JSVal) :
    uiState (showDownloadFailure pg message) = some .Failure := by
  simp only [uiState, showDownloadFailure, visibleContainers_showContainers]
  rfl

/-- The success view is shown after `showDownloadSuccess`. -/
theorem uiState_showDownloadSuccess (pg : Page) :
    uiState (showDownloadSuccess pg) = some .Success := by
  simp only [uiState, showDownloadSuccess, visibleContainers_showContainers]
  rfl

/-- The transferring view is shown after `showDownloadingStatus(TRANSFERRING)`. -/
theorem uiState_showDownloadingStatus_transferring (pg : Page) :
    uiState (showDownloadingStatus pg TRANSFERRING) = some .Transferring := by
  simp only [uiState, showDownloadingStatus, visibleContainers_showContainers,
    (showContainers_texts _ _).2.2.1]
  rfl

/-- The preparing view is shown when `downloadAndSave` returns. -/
theorem uiState_startDownload (pg : Page) :
    uiState (startDownload pg) = some .Preparing := by
  simp only [uiState, startDownload, showDownloadingStatus, visibleContainers_showContainers,
    (showContainers_texts _ _).2.2.1]
  rfl

/-! ## Theorems: save errors and transfer failures -/

/-- The error text after `showDownloadFailure`, for every message. -/
theorem showDownloadFailure_text (pg : Page) (message : JSVal) :
    (showDownloadFailure pg message).downloadErrorMsg
      = if message.truthy then message.toJSString else fallbackMessage := by
  simp only [showDownloadFailure, (showContainers_texts _ _).1]
  split <;> rfl

/-- C9, as stated, fails: in a browser without `URL.createObjectURL` the save
step throws a `TypeError` whose message is "URL.createObjectURL is not a
function", and the page displays "TypeError: URL.createObjectURL is not a
function", which is not that message text; and a thrown empty text makes the
handler display the fixed fallback text. -/
theorem saveError_typeError_display :
    saveBlob noObjectUrlBrowser "report.pdf".toList
        = .error (.errorObject "TypeError".toList
            "URL.createObjectURL is not a function".toList)
      ∧ (transferStep (startDownload blankPage)
          (.saveTimer (saveBlob noObjectUrlBrowser "report.pdf".toList))).downloadErrorMsg
        = "TypeError: URL.createObjectURL is not a function".toList
      ∧ (transferStep (startDownload blankPage)
          (.saveTimer (saveBlob noObjectUrlBrowser "report.pdf".toList))).downloadErrorMsg
        ≠ (JSVal.errorObject "TypeError".toList
            "URL.createObjectURL is not a function".toList).messageText
      ∧ (transferStep (startDownload blankPage)
          (.saveTimer (.error (.str [])))).downloadErrorMsg
        = "An error occurred while trying to retrieve your document. Please try again.".toList := by
  refine ⟨rfl, ?_, ?_, ?_⟩ <;> decide

/-- C9, amended: whenever the save step throws, the handler of the pre-save
timer ends in the failure view (failure, direct-link and error-message
containers visible, all others hidden) and displays the thrown value itself
converted to text when that value is truthy, and the fixed fallback text when
it is not: a thrown non-empty text is displayed verbatim, an `Error` object
as its name, a colon, a space and its message.  The text `saveBlob` throws
itself where `msSaveBlob` is defined is displayed verbatim, is no message of
`formatUnexpectedError` and is not the fallback text.  A completion with a
status outside 200-299, a network error and a client timeout each display a
message of `formatUnexpectedError`. -/
theorem saveError_shown_as_thrown (pg : Page) :
    (∀ (br : Browser) (filename : JSString) (error : JSVal),
        saveBlob br filename = .error error →
        (∀ c : Container,
            (transferStep pg (.saveTimer (saveBlob br filename))).visible c = true
              ↔ c ∈ [Container.downloadFailure, .downloadDirectLink, .downloadErrorMsg])
          ∧ uiState (transferStep pg (.saveTimer (saveBlob br filename))) = some .Failure
          ∧ (transferStep pg (.saveTimer (saveBlob br filename))).downloadErrorMsg
              = if error.truthy then error.toJSString else fallbackMessage)
      ∧ (∀ text : JSString, text ≠ [] →
          (transferStep pg (.saveTimer (.error (.str text)))).downloadErrorMsg = text)
      ∧ (∀ name message : JSString, name ≠ [] → message ≠ [] →
          (transferStep pg (.saveTimer (.error (.errorObject name message)))).downloadErrorMsg
            = name ++ ": ".toList ++ message)
      ∧ (∀ (br : Browser) (filename : JSString), br.newBlob = none → br.msSaveBlob = true →
          saveBlob br filename = .error (.str unsupportedBrowserMessage)
            ∧ (transferStep pg (.saveTimer (saveBlob br filename))).downloadErrorMsg
                = unsupportedBrowserMessage
            ∧ (∀ kind : JSVal, unsupportedBrowserMessage ≠ formatUnexpectedError kind)
            ∧ unsupportedBrowserMessage ≠ fallbackMessage)
      ∧ (∀ status : Nat, ¬ (status ≥ 200 ∧ status < 300) →
          (transferStep pg (.readyStateChange FINISHED status)).downloadErrorMsg
              = formatUnexpectedHttpError status
            ∧ ∃ kind : JSVal,
              (transferStep pg (.readyStateChange FINISHED status)).downloadErrorMsg
                = formatUnexpectedError kind)
      ∧ (transferStep pg .networkError).downloadErrorMsg
          = formatUnexpectedError (.str "network".toList)
      ∧ (transferStep pg .clientTimeout).downloadErrorMsg
          = formatUnexpectedError (.str "client timeout".toList) := by
  refine ⟨?_, ?_, ?_, ?_, ?_, ?_, ?_⟩
  · intro br filename error h
    rw [h]
    refine ⟨?_, uiState_showDownloadFailure pg error, showDownloadFailure_text pg error⟩
    intro c
    show (showDownloadFailure pg error).visible c = true ↔ _
    cases c <;> simp [showDownloadFailure, Page.visible, showContainers_hidden]
  · intro text hne
    refine showDownloadFailure_message pg (.str text) ?_
    cases text with
    | nil => exact absurd rfl hne
    | cons c cs => rfl
  · intro name message hn hm
    refine (showDownloadFailure_message pg (.errorObject name message) rfl).trans ?_
    cases name with
    | nil => exact absurd rfl hn
    | cons a as =>
      cases message with
      | nil => exact absurd rfl hm
      | cons b bs => rfl
  · intro br filename hb hms
    have hsave : saveBlob br filename = .error (.str unsupportedBrowserMessage) := by
      simp only [saveBlob, hb, hms, browserCall]
      rfl
    refine ⟨hsave, ?_, ?_, by decide⟩
    · rw [hsave]
      exact showDownloadFailure_message pg _ rfl
    · intro kind heq
      have h1 := congrArg List.head? heq
      rw [formatUnexpectedError_head] at h1
      revert h1
      decide
  · intro status hs
    have h1 : (transferStep pg (.readyStateChange FINISHED status)).downloadErrorMsg
        = formatUnexpectedHttpError status := by
      have hs2 : ¬ (FINISHED = FINISHED ∧ status ≥ 200 ∧ status < 300) := fun hh => hs hh.2
      show (if FINISHED = FINISHED ∧ status ≥ 200 ∧ status < 300 then pg
        else if FINISHED = FINISHED then
          showDownloadFailure pg (.str (formatUnexpectedHttpError status))
        else pg).downloadErrorMsg = _
      rw [if_neg hs2, if_pos rfl]
      exact showDownloadFailure_message pg (.str (formatUnexpectedHttpError status)) rfl
    exact ⟨h1, _, h1⟩
  · exact showDownloadFailure_message pg _ (formatUnexpectedError_truthy _)
  · exact showDownloadFailure_message pg _ (formatUnexpectedError_truthy _)

/-- The amended C9 at two browsers: where `msSaveBlob` is defined the text
thrown by `saveBlob` is displayed verbatim in the failure view; where
`URL.createObjectURL` is missing the `TypeError` is displayed as its name and
message; and a completion with status 404 displays the client message. -/
theorem saveError_shown_as_thrown_witness :
    uiState (transferStep (startDownload blankPage)
          (.saveTimer (saveBlob msBrowser "report.pdf".toList))) = some .Failure
      ∧ (transferStep (startDownload blankPage)
          (.saveTimer (saveBlob msBrowser "report.pdf".toList))).downloadErrorMsg
        = "This browser version is not supported.  Please try again with a different browser.".toList
      ∧ (transferStep (startDownload blankPage)
          (.saveTimer (saveBlob noObjectUrlBrowser "report.pdf".toList))).downloadErrorMsg
        = "TypeError: URL.createObjectURL is not a function".toList
      ∧ (transferStep (startDownload blankPage) (.readyStateChange FINISHED 404)).downloadErrorMsg
        = "An unexpected client error occurred when requesting your document".toList :=
  ⟨((saveError_shown_as_thrown (startDownload blankPage)).1
      msBrowser "report.pdf".toList (.str unsupportedBrowserMessage) rfl).2.1,
   ((saveError_shown_as_thrown (startDownload blankPage)).2.2.2.1
      msBrowser "report.pdf".toList rfl rfl).2.1,
   ((saveError_shown_as_thrown (startDownload blankPage)).1
      noObjectUrlBrowser "report.pdf".toList
      (.errorObject "TypeError".toList "URL.createObjectURL is not a function".toList) rfl).2.2,
   ((saveError_shown_as_thrown (startDownload blankPage)).2.2.2.2.1 404 (by decide)).1⟩

/-! ## Theorems: the order of the view states -/

/-- What one transfer event can do to the view state: leave it as it is, show
the transferring view (a progress event only), or show one of the two final
views. -/
theorem uiState_transferStep (pg : Page) (e : TransferEvent) :
    uiState (transferStep pg e) = uiState pg
      ∨ (e = .progress ∧ uiState (transferStep pg e) = some .Transferring)
      ∨ uiState (transferStep pg e) = some .Success
      ∨ uiState (transferStep pg e) = some .Failure := by
  cases e with
  | dispatchTimer sendThrows =>
    cases sendThrows
    · exact Or.inl rfl
    · exact Or.inr (Or.inr (Or.inr (uiState_showDownloadFailure pg _)))
  | progress => exact Or.inr (Or.inl ⟨rfl, uiState_showDownloadingStatus_transferring pg⟩)
  | readyStateChange readyState status =>
    simp only [transferStep]
    split_ifs
    · exact Or.inl rfl
    · exact Or.inr (Or.inr (Or.inr (uiState_showDownloadFailure pg _)))
    · exact Or.inl rfl
  | networkError => exact Or.inr (Or.inr (Or.inr (uiState_showDownloadFailure pg _)))
  | clientTimeout => exact Or.inr (Or.inr (Or.inr (uiState_showDownloadFailure pg _)))
  | saveTimer result =>
    cases result with
    | ok a => exact Or.inr (Or.inr (Or.inl (uiState_showDownloadSuccess pg)))
    | error err => exact Or.inr (Or.inr (Or.inr (uiState_showDownloadFailure pg err)))

/-- C10, as stated, fails: in the session that prepares, dispatches, reports
progress and completes with status 500, the failure view is reached, and a
further progress event returns the view to Transferring. -/
theorem progress_after_failure_shows_transferring :
    uiState (runTransfer (startDownload blankPage)
        [.dispatchTimer false, .progress, .readyStateChange 4 500]) = some .Failure
      ∧ uiState (runTransfer (startDownload blankPage)
        [.dispatchTimer false, .progress, .readyStateChange 4 500, .progress])
          = some .Transferring := by
  constructor <;> decide

/-- C10, amended: for every sequence of transfer events, no event enters the
password prompt and no event enters Preparing (so neither Transferring nor a
final view ever returns to Preparing), and from Success or Failure every
sequence that holds no progress event ends in Success or Failure again; a
progress event is the only event that shows Transferring. -/
theorem transfer_order (pg : Page) (events : List TransferEvent) :
    (uiState pg ≠ some .PasswordPrompt →
        uiState (runTransfer pg events) ≠ some .PasswordPrompt)
      ∧ (uiState pg ≠ some .Preparing →
        uiState (runTransfer pg events) ≠ some .Preparing)
      ∧ (TransferEvent.progress ∉ events →
        (uiState pg = some .Success ∨ uiState pg = some .Failure) →
        (uiState (runTransfer pg events) = some .Success
          ∨ uiState (runTransfer pg events) = some .Failure))
      ∧ (∀ e : TransferEvent, uiState pg ≠ some .Transferring →
        uiState (transferStep pg e) = some .Transferring → e = .progress) := by
  refine ⟨?_, ?_, ?_, ?_⟩
  · induction events generalizing pg with
    | nil => exact id
    | cons e es ih =>
      intro h
      refine ih (transferStep pg e) ?_
      rcases uiState_transferStep pg e with h1 | ⟨_, h1⟩ | h1 | h1 <;> rw [h1]
      · exact h
      all_goals decide
  · induction events generalizing pg with
    | nil => exact id
    | cons e es ih =>
      intro h
      refine ih (transferStep pg e) ?_
      rcases uiState_transferStep pg e with h1 | ⟨_, h1⟩ | h1 | h1 <;> rw [h1]
      · exact h
      all_goals decide
  · induction events generalizing pg with
    | nil => exact fun _ h => h
    | cons e es ih =>
      intro hmem h
      have he : e ≠ .progress := fun hh => hmem (hh ▸ List.mem_cons_self _ _)
      have hes : TransferEvent.progress ∉ es := fun hh => hmem (List.mem_cons_of_mem _ hh)
      refine ih (transferStep pg e) hes ?_
      rcases uiState_transferStep pg e with h1 | ⟨h0, _⟩ | h1 | h1
      · rw [h1]; exact h
      · exact absurd h0 he
      · exact Or.inl h1
      · exact Or.inr h1
  · intro e hne h
    rcases uiState_transferStep pg e with h1 | ⟨h0, _⟩ | h1 | h1
    · exact absurd (h1 ▸ h) hne
    · exact h0
    · rw [h1] at h; exact absurd h (by decide)
    · rw [h1] at h; exact absurd h (by decide)

/-- The amended C10 on a session that fails with status 500 and then sees a
network error: the view stays Failure and never returns to Preparing. -/
theorem transfer_order_witness :
    uiState (runTransfer (startDownload blankPage)
        [.dispatchTimer false, .progress, .readyStateChange 4 500]) = some .Failure
      ∧ (uiState (runTransfer (runTransfer (startDownload blankPage)
          [.dispatchTimer false, .progress, .readyStateChange 4 500]) [.networkError])
            = some .Success
        ∨ uiState (runTransfer (runTransfer (startDownload blankPage)
          [.dispatchTimer false, .progress, .readyStateChange 4 500]) [.networkError])
            = some .Failure) :=
  ⟨by decide,
   (transfer_order (runTransfer (startDownload blankPage)
      [.dispatchTimer false, .progress, .readyStateChange 4 500]) [.networkError]).2.2.1
      (by simp) (Or.inr (by decide))⟩

/-! ## Theorems: filename extraction -/

/-- The function `includes` decides whether the pattern is a contiguous part
of the string. -/
theorem includes_iff (pat s : JSString) : includes pat s = true ↔ pat <:+: s := by
  induction s with
  | nil => simp [includes]
  | cons c cs ih =>
    simp only [includes, Bool.or_eq_true, List.isPrefixOf_iff_prefix, ih, List.infix_cons_iff]

/-- A pattern absent from the string makes `includes` false. -/
theorem includes_eq_false (pat s : JSString) (h : ¬ pat <:+: s) : includes pat s = false := by
  cases hb : includes pat s with
  | false => rfl
  | true => exact absurd ((includes_iff pat s).1 hb) h

/-- Passing over the characters of a matched separator. -/
theorem splitGo_skip (sep pre rest acc : JSString) :
    splitGo sep (pre ++ rest) pre.length acc = splitGo sep rest 0 acc := by
  induction pre with
  | nil => rfl
  | cons c cs ih => simpa [splitGo] using ih

/-- A string without the separator is a single piece. -/
theorem splitGo_no_occurrence (sep s acc : JSString) (h : includes sep s = false) :
    splitGo sep s 0 acc = [acc.reverse ++ s] := by
  induction s generalizing acc with
  | nil => simp [splitGo]
  | cons c cs ih =>
    simp only [includes, Bool.or_eq_false_iff] at h
    simp [splitGo, h.1, ih (c :: acc) h.2]

/-- Characters other than the first of the separator are collected. -/
theorem splitGo_pre (s0 : Char) (st pre rest acc : JSString) (h : ∀ c ∈ pre, c ≠ s0) :
    splitGo (s0 :: st) (pre ++ rest) 0 acc
      = splitGo (s0 :: st) rest 0 (pre.reverse ++ acc) := by
  induction pre generalizing acc with
  | nil => rfl
  | cons c cs ih =>
    have hne := h c (List.mem_cons_self _ _)
    have hc : (s0 == c) = false := by
      rw [beq_eq_false_iff_ne]
      exact fun e => hne e.symm
    have := ih (c :: acc) (fun d hd => h d (List.mem_cons_of_mem _ hd))
    simpa [splitGo, List.isPrefixOf, hc] using this

/-- An occurrence of the separator closes the current piece. -/
theorem splitGo_sep (s0 : Char) (st rest acc : JSString) :
    splitGo (s0 :: st) ((s0 :: st) ++ rest) 0 acc
      = acc.reverse :: splitGo (s0 :: st) rest 0 [] := by
  have hp : (s0 :: st).isPrefixOf (s0 :: (st ++ rest)) = true := by
    rw [List.isPrefixOf_iff_prefix]
    exact ⟨rest, rfl⟩
  have := splitGo_skip (s0 :: st) st rest []
  show splitGo (s0 :: st) (s0 :: (st ++ rest)) 0 acc = _
  rw [splitGo, if_pos hp, List.length_cons, Nat.add_sub_cancel, this]

/-- The pieces of a header that starts with `attachment; filename=`. -/
theorem split_attachment (x : JSString) :
    split filenameToken ("attachment; filename=".toList ++ x)
      = "attachment; ".toList :: splitGo filenameToken x 0 [] := by
  have h1 : "attachment; filename=".toList ++ x
      = "attachment; ".toList ++ (('f' :: "ilename=".toList) ++ x) := rfl
  have h2 : filenameToken = 'f' :: "ilename=".toList := rfl
  rw [split, h1, h2, splitGo_pre _ _ _ _ _ (by decide), splitGo_sep]
  rfl

/-- A header that starts with `attachment; filename=` includes the token. -/
theorem includes_attachment (x : JSString) :
    includes filenameToken ("attachment; filename=".toList ++ x) = true :=
  (includes_iff _ _).2 ⟨"attachment; ".toList, x, rfl⟩

/-- A pattern found between two characters that it does not hold is found
in the text between them. -/
theorem infix_of_infix_wrapped (pat name : JSString) (q : Char) (hq : q ∉ pat)
    (hne : pat ≠ []) (h : pat <:+: q :: (name ++ [q])) : pat <:+: name := by
  rcases List.infix_cons_iff.1 h with h1 | h1
  · rcases List.prefix_cons_iff.1 h1 with h2 | ⟨t, h2, _⟩
    · exact absurd h2 hne
    · exact absurd (h2 ▸ List.mem_cons_self _ _) hq
  · rcases List.infix_concat_iff.1 h1 with h2 | h2
    · rcases List.suffix_concat_iff.1 h2 with h3 | ⟨t, h3, _⟩
      · exact absurd h3 hne
      · exact absurd (h3 ▸ List.mem_append_right _ (List.mem_singleton_self _)) hq
    · exact h2

/-- The worker of `split` always yields at least one piece. -/
theorem splitGo_length_pos (sep s : JSString) (skip : Nat) (acc : JSString) :
    1 ≤ (splitGo sep s skip acc).length := by
  induction s generalizing skip acc with
  | nil => simp [splitGo]
  | cons c cs ih =>
    cases skip with
    | succ k => simpa [splitGo] using ih k acc
    | zero =>
      rw [splitGo]
      split_ifs
      · simp
      · exact ih 0 (c :: acc)

/-- A string that includes a non-empty separator splits into at least two
pieces, so piece 1 exists. -/
theorem split_length_of_includes (sep s : JSString) (hsep : sep ≠ [])
    (h : includes sep s = true) : 2 ≤ (split sep s).length := by
  have key : ∀ acc : JSString, 2 ≤ (splitGo sep s 0 acc).length := by
    induction s with
    | nil =>
      cases sep with
      | nil => exact absurd rfl hsep
      | cons a as => simp [includes] at h
    | cons c cs ih =>
      intro acc
      rw [splitGo]
      split_ifs with hp
      · have := splitGo_length_pos sep cs (sep.length - 1) []
        simp only [List.length_cons]
        omega
      · refine ih ?_ (c :: acc)
        simpa [includes, hp] using h
  exact key []

/-- The filename read from a header `attachment; filename=` followed by a
text that does not hold the token again. -/
theorem getContentDispositionFilename_attachment (x : JSString)
    (hx : includes filenameToken x = false) :
    getContentDispositionFilename (some ("attachment; filename=".toList ++ x))
      = if charAt x 0 = [dquote] ∧ charAt x (x.length - 1) = [dquote] then
          substr x 1 ((x.length : Int) - 2)
        else x := by
  have hne : ("attachment; filename=".toList ++ x).isEmpty = false := rfl
  simp only [getContentDispositionFilename, hne, includes_attachment, split_attachment,
    splitGo_no_occurrence _ _ _ hx]
  rfl

/-- A header without the token yields the text `attachment`. -/
theorem getContentDispositionFilename_no_token (header : JSString)
    (h : includes filenameToken header = false) :
    getContentDispositionFilename (some header) = "attachment".toList := by
  simp only [getContentDispositionFilename, h]
  simp only [Bool.and_false, Bool.false_eq_true, if_false]
  decide

/-- C3: for every name without a double quote and without the text
`filename=`, the headers `attachment; filename="<name>"` and
`attachment; filename=<name>` both yield the name; an absent header and every
header that does not contain `filename=` yield the text `attachment`. -/
theorem getContentDispositionFilename_name (name : JSString)
    (hq : dquote ∉ name) (hf : ¬ filenameToken <:+: name) :
    getContentDispositionFilename
        (some ("attachment; filename=".toList ++ [dquote] ++ name ++ [dquote])) = name
      ∧ getContentDispositionFilename (some ("attachment; filename=".toList ++ name)) = name
      ∧ getContentDispositionFilename none = "attachment".toList
      ∧ ∀ header : JSString, ¬ filenameToken <:+: header →
          getContentDispositionFilename (some header) = "attachment".toList := by
  refine ⟨?_, ?_, by decide, ?_⟩
  · have hx : includes filenameToken (dquote :: (name ++ [dquote])) = false :=
      includes_eq_false _ _ (fun h =>
        hf (infix_of_infix_wrapped filenameToken name dquote (by decide) (by decide) h))
    have hh : "attachment; filename=".toList ++ [dquote] ++ name ++ [dquote]
        = "attachment; filename=".toList ++ (dquote :: (name ++ [dquote])) := by
      simp [List.append_assoc]
    rw [hh, getContentDispositionFilename_attachment _ hx]
    have h0 : charAt (dquote :: (name ++ [dquote])) 0 = [dquote] := rfl
    have h1 : charAt (dquote :: (name ++ [dquote]))
        ((dquote :: (name ++ [dquote])).length - 1) = [dquote] := by
      simp [charAt]
    rw [if_pos ⟨h0, h1⟩]
    have hlen : (((dquote :: (name ++ [dquote])).length : Int) - 2).toNat = name.length := by
      simp only [List.length_cons, List.length_append, List.length_nil]
      omega
    simp only [substr, hlen, List.drop_succ_cons, List.drop_zero]
    exact List.take_left name [dquote]
  · have hx : includes filenameToken name = false := includes_eq_false _ _ hf
    rw [getContentDispositionFilename_attachment _ hx]
    have h0 : charAt name 0 ≠ [dquote] := by
      cases name with
      | nil => simp [charAt]
      | cons c cs =>
        intro h
        simp only [charAt, List.get?_cons_zero, List.cons.injEq, and_true] at h
        exact hq (h ▸ List.mem_cons_self _ _)
    rw [if_neg (fun h => h0 h.1)]
  · intro header h
    exact getContentDispositionFilename_no_token header (includes_eq_false _ _ h)

/-- C3 at the name `report.pdf`, quoted and unquoted. -/
theorem getContentDispositionFilename_name_witness :
    getContentDispositionFilename
        (some ("attachment; filename=".toList ++ [dquote] ++ "report.pdf".toList ++ [dquote]))
          = "report.pdf".toList
      ∧ getContentDispositionFilename
        (some ("attachment; filename=".toList ++ "report.pdf".toList)) = "report.pdf".toList :=
  ⟨(getContentDispositionFilename_name "report.pdf".toList (by decide)
      (by rw [← includes_iff]; decide)).1,
   (getContentDispositionFilename_name "report.pdf".toList (by decide)
      (by rw [← includes_iff]; decide)).2.1⟩

/-- C2: for the header `attachment; filename="myfilename=1.pdf"` the function
returns the three characters `"my`, where the text after the first
`filename=` is `"myfilename=1.pdf"` and its unquoted form `myfilename=1.pdf`;
for the header `attachment; filename="` it returns the empty string, where
the text after `filename=` is a single double quote. -/
theorem getContentDispositionFilename_repeated_token :
    getContentDispositionFilename
        (some ("attachment; filename=".toList ++ [dquote] ++ "myfilename=1.pdf".toList
          ++ [dquote])) = dquote :: "my".toList
      ∧ getContentDispositionFilename (some ("attachment; filename=".toList ++ [dquote])) = []
      ∧ includes filenameToken
          ("attachment; filename=".toList ++ [dquote] ++ "myfilename=1.pdf".toList
            ++ [dquote]) = true
      ∧ includes filenameToken ("attachment; filename=".toList ++ [dquote]) = true := by
  refine ⟨?_, ?_, ?_, ?_⟩ <;> decide

/-- C6 at two parameter sets: with the password `secret` the request is a
POST to `requestdocument.php` with the parameters in the body; without a
password it is a GET with the parameters in the query string. -/
theorem downloadRequest_method_witness :
    (downloadRequest sampleSerialize
        [("s".toList, .str "abc".toList), ("mal".toList, .str "def".toList),
         ("p".toList, .str "secret".toList)]).url = "requestdocument.php".toList
      ∧ (downloadRequest sampleSerialize
        [("s".toList, .str "abc".toList), ("mal".toList, .str "def".toList),
         ("p".toList, .str "secret".toList)]).body = some "s=abc&mal=def&p=secret".toList
      ∧ (downloadRequest sampleSerialize
        [("s".toList, .str "abc".toList), ("mal".toList, .str "def".toList),
         ("p".toList, .null)]).url = "getdocument.php?s=abc&mal=def&p=".toList :=
  ⟨((downloadRequest_method sampleSerialize
        [("s".toList, .str "abc".toList), ("mal".toList, .str "def".toList),
         ("p".toList, .str "secret".toList)]).1 (by decide)).2.1,
   ((downloadRequest_method sampleSerialize
        [("s".toList, .str "abc".toList), ("mal".toList, .str "def".toList),
         ("p".toList, .str "secret".toList)]).1 (by decide)).2.2.2,
   ((downloadRequest_method sampleSerialize
        [("s".toList, .str "abc".toList), ("mal".toList, .str "def".toList),
         ("p".toList, .null)]).2.1 (by decide)).2.1⟩

/-- C7 at the password `secret` and at no password. -/
theorem requestDocument_verify_flag_witness :
    requestDocument ⟨.str "abc".toList, .str "def".toList⟩ (.str "secret".toList)
        = .ajax "requestdocument.php".toList "POST".toList
            [("s".toList, .str "abc".toList), ("mal".toList, .str "def".toList),
             ("p".toList, .str "secret".toList), ("v".toList, .bool true)]
      ∧ requestDocument ⟨.str "abc".toList, .str "def".toList⟩ .undefined
        = .download
            [("s".toList, .str "abc".toList), ("mal".toList, .str "def".toList),
             ("p".toList, .null)] :=
  ⟨((requestDocument_verify_flag ⟨.str "abc".toList, .str "def".toList⟩
      (.str "secret".toList) blankPage).1 (by decide)).1,
   ((requestDocument_verify_flag ⟨.str "abc".toList, .str "def".toList⟩
      .undefined blankPage).2 (by decide)).1⟩

end SDD
